import Mathlib

/-!
Verification development for the retrieval-augmented video query pipeline
(`backend/rag_engine.py`, `backend/query_handler.py`, `backend/api.py`).

The Python code is shallowly embedded: pure functions become Lean functions,
the module-level ChromaDB store and `_current_collection_name` pointer become
an explicit `RagState` value, numeric times become `ℚ` (Python floats used
exactly on the decimal inputs at hand), and fallible code returns `Except`.
External services (OpenAI embeddings, the vector index ANN, the language
model, `hashlib.md5`) are passed in as explicit function parameters, so every
theorem quantifies over what those services may report.
-/

namespace VideoAgent

/-- A transcript segment: `{"start": .., "end": .., "text": ..}`.
The Python `end` key is named `stop` (`end` is a Lean keyword). -/
structure Segment where
  start : ℚ
  stop : ℚ
  text : String
  deriving Repr, DecidableEq

/-- A transcript dict: `{"segments": [...], "full_text": .., "duration": ..,
"language": ..}` as produced by `video_transcriber.py`. -/
structure Transcript where
  segments : List Segment
  full_text : String
  duration : ℚ
  language : String
  deriving Repr, DecidableEq

/-- A chunk produced by `chunk_transcript`: `{"text": .., "start": .., "end": ..}`. -/
structure Chunk where
  text : String
  start : ℚ
  stop : ℚ
  deriving Repr, DecidableEq

/-- Python `sep.join(l)`: empty string on `[]`, otherwise the elements
separated by `sep`. -/
def joinWith (sep : String) : List String → String
  | [] => ""
  | [a] => a
  | a :: b :: rest => a ++ sep ++ joinWith sep (b :: rest)

/-- Loop body of `chunk_transcript` (rag_engine.py lines 72-89).  The
accumulator `curTexts`/`curStart`/`curStop` mirrors the Python locals
`current_texts`/`current_start`/`current_end`; `rest.isEmpty` mirrors the
`i == len(transcript["segments"]) - 1` last-segment test. -/
def chunkAux (minLen : Nat) : List Segment → List String → ℚ → ℚ → List Chunk
  | [], _, _, _ => []
  | seg :: rest, curTexts, curStart, _curStop =>
    let curStart' := if curTexts.isEmpty then seg.start else curStart
    let curTexts' := curTexts ++ [seg.text]
    let curStop' := seg.stop
    let chunkText := joinWith " " curTexts'
    if minLen ≤ chunkText.length ∨ rest.isEmpty then
      { text := chunkText, start := curStart', stop := curStop' }
        :: chunkAux minLen rest [] curStart' curStop'
    else
      chunkAux minLen rest curTexts' curStart' curStop'

/-- `chunk_transcript(transcript, min_chunk_length)` (rag_engine.py lines
56-90).  The Python default `min_chunk_length=100` is passed explicitly at
call sites. -/
def chunk_transcript (t : Transcript) (minLen : Nat) : List Chunk :=
  chunkAux minLen t.segments [] 0 0

theorem joinWith_cons (sep a : String) {l : List String} (h : l ≠ []) :
    joinWith sep (a :: l) = a ++ sep ++ joinWith sep l := by
  cases l with
  | nil => exact absurd rfl h
  | cons b rest => rfl

theorem joinWith_append (sep : String) (l₁ l₂ : List String)
    (h₁ : l₁ ≠ []) (h₂ : l₂ ≠ []) :
    joinWith sep (l₁ ++ l₂) = joinWith sep l₁ ++ sep ++ joinWith sep l₂ := by
  induction l₁ with
  | nil => exact absurd rfl h₁
  | cons a rest ih =>
    cases rest with
    | nil =>
      cases l₂ with
      | nil => exact absurd rfl h₂
      | cons b r2 => simp [joinWith]
    | cons b r =>
      rw [List.cons_append, joinWith_cons sep a (by simp),
        joinWith_cons sep a (by simp), ih (by simp)]
      simp [String.append_assoc]

theorem chunkAux_ne_nil (minLen : Nat) {segs : List Segment}
    (h : segs ≠ []) (curTexts : List String) (s e : ℚ) :
    chunkAux minLen segs curTexts s e ≠ [] := by
  induction segs generalizing curTexts s e with
  | nil => exact absurd rfl h
  | cons seg rest ih =>
    cases rest with
    | nil => simp [chunkAux]
    | cons seg2 rest2 =>
      rw [chunkAux]
      split
      · simp
      · exact ih (by simp) _ _ _

/-- Invariant of the chunking loop: joining the emitted chunk texts with a
single space reproduces the pending accumulator texts followed by all
remaining segment texts, joined with single spaces. -/
theorem chunkAux_join (minLen : Nat) {segs : List Segment} (h : segs ≠ [])
    (curTexts : List String) (s e : ℚ) :
    joinWith " " ((chunkAux minLen segs curTexts s e).map Chunk.text)
      = joinWith " " (curTexts ++ segs.map Segment.text) := by
  induction segs generalizing curTexts s e with
  | nil => exact absurd rfl h
  | cons seg rest ih =>
    cases rest with
    | nil =>
      simp [chunkAux, joinWith]
    | cons seg2 rest2 =>
      rw [chunkAux]
      split
      · rw [List.map_cons, joinWith_cons " " _
          (by
            intro hc
            exact chunkAux_ne_nil minLen (by simp) [] _ _ (List.map_eq_nil_iff.mp hc)),
          ih (by simp) [] _ _]
        have hsplit : curTexts ++ (seg :: seg2 :: rest2).map Segment.text
            = (curTexts ++ [seg.text]) ++ (seg2 :: rest2).map Segment.text := by simp
        rw [hsplit, joinWith_append " " (curTexts ++ [seg.text])
          ((seg2 :: rest2).map Segment.text) (by simp) (by simp)]
        simp
      · rw [ih (by simp) (curTexts ++ [seg.text]) _ _]
        simp

/-- Sanity check (spec §8 scenario): three segments with
`min_chunk_length = 20` chunk into the expected two chunks. -/
theorem chunk_transcript_spec_scenario :
    chunk_transcript ⟨[⟨0, 5, "intro"⟩,
        ⟨5, 40, "explains the main algorithm in detail"⟩,
        ⟨40, 42, "thanks"⟩], "", 42, "en"⟩ 20
      = [⟨"intro explains the main algorithm in detail", 0, 40⟩,
         ⟨"thanks", 40, 42⟩] := by
  decide

/-! ## Embedding gateway (`generate_embeddings`, rag_engine.py lines 31-53)

The external OpenAI call `client.embeddings.create` is abstracted as a
parameter `svc` mapping one batch of texts to their vectors; the function
itself performs the batching (batch size 100) and concatenation. -/

/-- `generate_embeddings(texts)`: batches of 100, per-batch service call,
results concatenated in order. -/
def generate_embeddings (svc : List String → List (List ℚ)) :
    List String → List (List ℚ)
  | [] => []
  | t :: ts =>
    svc ((t :: ts).take 100) ++ generate_embeddings svc ((t :: ts).drop 100)
termination_by l => l.length
decreasing_by
  simp only [List.length_drop, List.length_cons]
  omega

/-- If each service call returns one vector per input text (the documented
OpenAI contract, spec §6), `generate_embeddings` is length-preserving. -/
theorem generate_embeddings_length (svc : List String → List (List ℚ))
    (hsvc : ∀ b, (svc b).length = b.length) :
    ∀ n ts, ts.length ≤ n → (generate_embeddings svc ts).length = ts.length := by
  intro n
  induction n with
  | zero =>
    intro ts hts
    cases ts with
    | nil => rw [generate_embeddings]; rfl
    | cons t ts' => simp at hts
  | succ n ih =>
    intro ts hts
    cases ts with
    | nil => rw [generate_embeddings]; rfl
    | cons t ts' =>
      rw [generate_embeddings]
      have hdrop : ((t :: ts').drop 100).length ≤ n := by
        simp only [List.length_drop]
        omega
      rw [List.length_append, hsvc, ih _ hdrop]
      simp only [List.length_take, List.length_drop]
      omega

/-! ## Index store state (ChromaDB collections and the module-global
`_current_collection_name`, rag_engine.py lines 22-28) -/

/-- One indexed member of a collection, as written by `collection.add`
(rag_engine.py lines 136-141): id, document text, `{"start", "end"}`
metadata, and the embedding vector. -/
structure IndexedItem where
  id : String
  document : String
  start : ℚ
  stop : ℚ
  embedding : List ℚ
  deriving Repr, DecidableEq

/-- Look up a collection by name in the store's association list. -/
def lookupColl : List (String × List IndexedItem) → String → Option (List IndexedItem)
  | [], _ => none
  | (k, v) :: rest, n => if k = n then some v else lookupColl rest n

/-- Replace (or append) the contents of the named collection. -/
def setColl : List (String × List IndexedItem) → String → List IndexedItem →
    List (String × List IndexedItem)
  | [], n, v => [(n, v)]
  | (k, w) :: rest, n, v =>
    if k = n then (n, v) :: rest else (k, w) :: setColl rest n v

/-- The mutable module state of `rag_engine.py`: the ChromaDB persistent
store (a map from collection name to members) plus the process-wide
`_current_collection_name` pointer. -/
structure RagState where
  collections : List (String × List IndexedItem)
  current : Option String
  deriving Repr, DecidableEq

/-- `collection_exists(collection_name)` (rag_engine.py lines 240-246):
`get_collection` succeeds exactly when the name is present. -/
def collection_exists (st : RagState) (name : String) : Bool :=
  (lookupColl st.collections name).isSome

/-- The content-derived video id (rag_engine.py lines 107-109):
`"video_" + md5(full_text[:1000].encode()).hexdigest()[:12]`.  `md5hex`
stands for the external `hashlib.md5(...).hexdigest()`. -/
def deriveVideoId (md5hex : String → String) (t : Transcript) : String :=
  "video_" ++ (md5hex (t.full_text.take 1000)).take 12

/-- The collection name derived by `index_transcript` (rag_engine.py lines
106-111): the content hash is used when `video_id` is falsy (`None` or
`""`). -/
def derivedName (md5hex : String → String) (t : Transcript)
    (videoId : Option String) : String :=
  "transcript_" ++
    (match videoId with
     | none => deriveVideoId md5hex t
     | some v => if v = "" then deriveVideoId md5hex t else v)

/-- The clearing step of `index_transcript` (rag_engine.py lines 119-122):
`existing = collection.get(); if existing["ids"]: collection.delete(ids=
existing["ids"])` — every member whose id is among the present ids is
removed. -/
def clearItems (existing : List IndexedItem) : List IndexedItem :=
  if (existing.map IndexedItem.id).isEmpty then existing
  else existing.filter (fun it => !((existing.map IndexedItem.id).contains it.id))

/-- The fresh members added by `index_transcript` (rag_engine.py lines
124-141): chunk the transcript (default `min_chunk_length=100`), take the
chunk texts as documents, `{"start", "end"}` metadata, ids `chunk_i`, and
the embeddings from `generate_embeddings`. -/
def newChunkItems (svc : List String → List (List ℚ)) (t : Transcript) :
    List IndexedItem :=
  let chunks := chunk_transcript t 100
  let documents := chunks.map Chunk.text
  let metas := chunks.map (fun c => (c.start, c.stop))
  let ids := (List.range chunks.length).map (fun i => "chunk_" ++ toString i)
  let embeddings := generate_embeddings svc documents
  (ids.zip ((documents.zip metas).zip embeddings)).map
    (fun p => { id := p.1, document := p.2.1.1, start := p.2.1.2.1,
                stop := p.2.1.2.2, embedding := p.2.2 })

/-- `index_transcript(transcript, video_id)` (rag_engine.py lines 93-144):
derive the collection name, get-or-create the collection, delete all
existing member ids, chunk, embed, add the fresh members, and set the
current-collection pointer.  Returns the new state and the collection
name.  `Option String` models Python's `video_id: str = None`. -/
def index_transcript (md5hex : String → String)
    (svc : List String → List (List ℚ)) (st : RagState)
    (t : Transcript) (videoId : Option String) : RagState × String :=
  let name := derivedName md5hex t videoId
  let existing := (lookupColl st.collections name).getD []
  ({ collections := setColl st.collections name
       (clearItems existing ++ newChunkItems svc t),
     current := some name }, name)

/-- Python exceptions that escape the embedded code, untyped as in the
source (no custom exception classes are defined anywhere in the repo). -/
inductive PyExn where
  /-- `TypeError: '>' not supported between instances of 'float' and 'NoneType'`. -/
  | typeErrorNoneCmp
  /-- `ValueError` with message, e.g. rag_engine.py line 163. -/
  | valueError (msg : String)
  /-- ChromaDB's error from `get_collection` on a missing name. -/
  | collectionNotFound (name : String)
  /-- `openai` transport failure (service unreachable). -/
  | apiConnectionError
  /-- `json.JSONDecodeError` from `json.loads`. -/
  | jsonDecodeError
  deriving Repr, DecidableEq

/-- A search result dict (rag_engine.py lines 180-185):
`{"text", "start", "end", "relevance"}`. -/
structure SearchResult where
  text : String
  start : ℚ
  stop : ℚ
  relevance : ℚ
  deriving Repr, DecidableEq

/-- `search(query, n_results, collection_name)` (rag_engine.py lines
147-187).  The embedding of the query and the ANN lookup are external; the
parameter `raw` stands for `collection.query(...)` and yields, for the query
string, the parallel `(document, (start, end) metadata, distance)` rows the
index reports.  The result formatting `relevance = 1 - distance` is the
code under verification; note there is no clamping. -/
def search (st : RagState) (query : String)
    (collectionName : Option String)
    (raw : String → List (String × (ℚ × ℚ) × ℚ)) :
    Except PyExn (List SearchResult) :=
  let name? := match collectionName with
    | some n => if n = "" then st.current else some n
    | none => st.current
  match name? with
  | none => .error (.valueError "No collection available. Index a transcript first.")
  | some n =>
    if collection_exists st n then
      .ok ((raw query).map (fun r =>
        { text := r.1, start := r.2.1.1, stop := r.2.1.2, relevance := 1 - r.2.2 }))
    else .error (.collectionNotFound n)

/-- Whether the first character list leads (is an initial run of) the
second. -/
def leadsChars : List Char → List Char → Bool
  | [], _ => true
  | _ :: _, [] => false
  | a :: as, b :: bs => a == b && leadsChars as bs

/-- Python `str.replace(old, new)` on the underlying characters: replace all
non-overlapping occurrences of `p :: ps`, scanning left to right.  The
fuel argument (instantiated with the input length, which each step
consumes at least one character of) keeps the recursion structural. -/
def pyReplaceAux (p : Char) (ps : List Char) (rep : List Char) :
    Nat → List Char → List Char
  | 0, l => l
  | _ + 1, [] => []
  | fuel + 1, c :: rest =>
    if leadsChars (p :: ps) (c :: rest) then
      rep ++ pyReplaceAux p ps rep fuel (rest.drop ps.length)
    else
      c :: pyReplaceAux p ps rep fuel rest

/-- Python `s.replace(old, new)` (empty `old` not needed by the code). -/
def pyReplace (s old new : String) : String :=
  match old.data with
  | [] => s
  | p :: ps => String.mk (pyReplaceAux p ps new.data s.data.length s.data)

/-- `ensure_collection_indexed(collection_name, transcript)` (rag_engine.py
lines 257-284).  `transcript : Option Transcript` models the possibly-`None`
argument; `not transcript or not transcript.get("segments")` is the guard.
Returns the updated state and the boolean result. -/
def ensure_collection_indexed (md5hex : String → String)
    (svc : List String → List (List ℚ)) (st : RagState)
    (collectionName : String) (transcript : Option Transcript) :
    RagState × Bool :=
  if collection_exists st collectionName then
    ({ st with current := some collectionName }, true)
  else
    match transcript with
    | none => (st, false)
    | some t =>
      if t.segments.isEmpty then (st, false)
      else
        let vid := pyReplace collectionName "transcript_" ""
        let r := index_transcript md5hex svc st t (some vid)
        ({ r.1 with current := some r.2 }, true)

/-! ## Query handler (`query_handler.py`)

The language-model calls (`answer_question`, `generate_summary`,
`_extract_quick_keypoints`) and the retrieval calls that go through the
module state are abstracted as oracle parameters; the routing, the snippet
time-window arithmetic and the literal response strings are the embedded
code. -/

/-- Python `int(x)`: truncation toward zero. -/
def pyInt (q : ℚ) : ℤ :=
  if 0 ≤ q then ⌊q⌋ else ⌈q⌉

/-- Python float `//` (floor division). -/
def pyFloorDiv (a b : ℚ) : ℚ := (⌊a / b⌋ : ℤ)

/-- Python float `%`: `a - b * (a // b)`. -/
def pyMod (a b : ℚ) : ℚ := a - b * (⌊a / b⌋ : ℤ)

/-- Python `f"{n:02d}"`: decimal, zero-padded to width 2. -/
def pad2 (n : ℤ) : String :=
  let s := toString n
  if s.length < 2 then "0" ++ s else s

/-- `_format_time(seconds)` (query_handler.py lines 332-337): `HH:MM:SS`. -/
def formatTime (seconds : ℚ) : String :=
  let hours := pyInt (pyFloorDiv seconds 3600)
  let minutes := pyInt (pyFloorDiv (pyMod seconds 3600) 60)
  let secs := pyInt (pyMod seconds 60)
  pad2 hours ++ ":" ++ pad2 minutes ++ ":" ++ pad2 secs

/-- The classification dict produced by `detect_intent` once its fields are
read by `handle_user_query` (lines 239-241 and 261).  `maxDuration` models
`parameters["max_duration"]`: `none` = the key is absent, `some none` = the
key is present with JSON `null` (the shape the system prompt requests when
no duration is mentioned), `some (some v)` = a number. -/
structure IntentResult where
  intent : String
  topic : String
  maxDuration : Option (Option ℚ)
  detailLevel : Option (Option String)
  deriving Repr, DecidableEq

/-- Python `d.get(key, 60)` for the `max_duration` entry: the default is
used only when the key is absent; a key present with value `None` returns
`None`. -/
def pyGet (entry : Option (Option ℚ)) (dflt : ℚ) : Option ℚ :=
  match entry with
  | none => some dflt
  | some v => v

/-- A `{"start", "end", "text"}` dict as returned by
`find_timestamps_for_topic` (rag_engine.py lines 190-202). -/
structure TimeSpan where
  start : ℚ
  stop : ℚ
  text : String
  deriving Repr, DecidableEq

/-- The snippet time-window computation of `handle_user_query`
(query_handler.py lines 257-265), for a non-empty `timestamps` list:
`start = max(0, min(starts) - 2)`, `end = max(ends) + 2`, then
`if end - start > max_duration`, recenter on the midpoint of the first
span.  `maxDur = none` models `max_duration = None`, on which the Python
`>` comparison raises `TypeError`.  The empty-list error branch is
unreachable in the caller (guarded by `if timestamps:`). -/
def snippetWindowPy (timestamps : List TimeSpan) (maxDur : Option ℚ) :
    Except PyExn (ℚ × ℚ) :=
  match (timestamps.map TimeSpan.start).min?,
      (timestamps.map TimeSpan.stop).max?, timestamps with
  | some mn, some mx, t0 :: _ =>
    let s := max 0 (mn - 2)
    let e := mx + 2
    match maxDur with
    | none => .error .typeErrorNoneCmp
    | some m =>
      if e - s > m then
        let c := (t0.start + t0.stop) / 2
        .ok (max 0 (c - m / 2), c + m / 2)
      else
        .ok (s, e)
  | _, _, _ => .error (.valueError "min() arg is an empty sequence")

/-- A `{"title", "summary"}` key point from `_extract_quick_keypoints`. -/
structure KeyPoint where
  title : String
  summary : String
  deriving Repr, DecidableEq

/-- The response dict built by `handle_user_query`; optional fields model
keys that are only sometimes added.  `timestamps = some none` models the
key present with `None` (line 278). -/
structure QHResponse where
  intent : String
  query : String
  response : Option String
  results : Option (List SearchResult)
  timestamps : Option (Option (ℚ × ℚ))
  context : Option String
  keyPoints : Option (List KeyPoint)
  deriving Repr, DecidableEq

/-- `handle_user_query` after intent detection (query_handler.py lines
243-296).  `ir` is the dict returned by `detect_intent`; `searchFn topic k`
stands for `rag_engine.search(topic, n_results=k)` (so
`find_timestamps_for_topic(topic, 3)` is its k=3 projection); `llmAnswer`,
`llmSummary`, `llmKeypoints` are the external language-model calls of
`answer_question`, `generate_summary` and `_extract_quick_keypoints`. The
`video_path` clip-cutting side call (lines 272-275, external ffmpeg I/O)
is not modelled. -/
def handle_user_query (searchFn : String → Nat → List SearchResult)
    (llmAnswer : String → String) (llmSummary : Transcript → String)
    (llmKeypoints : Transcript → List KeyPoint)
    (ir : IntentResult) (q : String) (transcript : Option Transcript) :
    Except PyExn QHResponse :=
  let base : QHResponse :=
    { intent := ir.intent, query := q, response := none, results := none,
      timestamps := none, context := none, keyPoints := none }
  if ir.intent = "search" then
    let results := searchFn ir.topic 5
    .ok { base with
          results := some results,
          response := some ("Found " ++ toString results.length
            ++ " relevant segments for \x27" ++ ir.topic ++ "\x27") }
  else if ir.intent = "question" then
    .ok { base with response := some (llmAnswer ir.topic) }
  else if ir.intent = "snippet" then
    let timestamps := (searchFn ir.topic 3).map
      (fun r => ({ start := r.start, stop := r.stop, text := r.text } : TimeSpan))
    match timestamps with
    | [] =>
      .ok { base with
            response := some ("No content found for \x27" ++ ir.topic ++ "\x27"),
            timestamps := some none }
    | t0 :: _ =>
      match snippetWindowPy timestamps (pyGet ir.maxDuration 60) with
      | .error e => .error e
      | .ok w =>
        .ok { base with
              timestamps := some (some w), context := some t0.text,
              response := some ("Found content about \x27" ++ ir.topic
                ++ "\x27 at " ++ formatTime w.1) }
  else if ir.intent = "summary" then
    match transcript with
    | some t => .ok { base with response := some (llmSummary t) }
    | none => .ok { base with response := some "Transcript required for summary" }
  else if ir.intent = "keypoints" then
    match transcript with
    | some t =>
      let kps := llmKeypoints t
      .ok { base with
            keyPoints := some kps,
            response := some ("Found " ++ toString kps.length
              ++ " key points from the video") }
    | none => .ok { base with response := some "Transcript required for key points" }
  else
    .ok base

/-! ## Batch snippet windows (`create_snippet_from_query`, api.py lines
519-601)

Only the per-result window arithmetic (lines 545-557) is embedded; the
YouTube-link and file-cutting branches consume the windows but do not
change them. -/

/-- The per-result window of `create_snippet_from_query` (api.py lines
551-557): widen one result's span by `padding = 2.0`, floor at 0, and if
wider than `max_duration` recenter on that result's own midpoint. -/
def apiSnippetWindow (maxDur : ℚ) (r : TimeSpan) : ℚ × ℚ :=
  let s := max 0 (r.start - 2)
  let e := r.stop + 2
  if e - s > maxDur then
    let c := (r.start + r.stop) / 2
    (max 0 (c - maxDur / 2), c + maxDur / 2)
  else
    (s, e)

/-- The windows of the multi-result batch path: one per ranked search
result, in order (api.py loop at line 550). -/
def create_snippet_windows (results : List TimeSpan) (maxDur : ℚ) :
    List (ℚ × ℚ) :=
  results.map (apiSnippetWindow maxDur)

/-! ## Intent classification (`detect_intent`, query_handler.py lines 20-60)

`detect_intent` sends the classification prompt to the language-model
service and returns `json.loads(response.choices[0].message.content)` with
no validation of the parsed shape.  The service call is abstracted as its
outcome (`Except Unit String`: transport failure or the returned content
string); `json.loads` is modelled by an executable parser for the JSON
fragment the classifier emits (objects, arrays, strings without escape
sequences, integers, booleans, null). -/

/-- A parsed JSON value (model of what `json.loads` returns). -/
inductive JVal where
  | jnull
  | jbool (b : Bool)
  | jnum (n : ℤ)
  | jstr (s : String)
  | jarr (elems : List JVal)
  | jobj (fields : List (String × JVal))

/-- Skip JSON whitespace. -/
def skipWs : List Char → List Char
  | [] => []
  | c :: rest =>
    if c == ' ' || c == '\n' || c == '\t' || c == '\r' then skipWs rest
    else c :: rest

/-- Parse the body of a JSON string after the opening quote (model without
escape sequences, which the classifier output at issue does not use). -/
def parseStrBody : List Char → Option (List Char × List Char)
  | [] => none
  | c :: rest =>
    if c == '"' then some ([], rest)
    else
      match parseStrBody rest with
      | some (s, r) => some (c :: s, r)
      | none => none

/-- Take a maximal run of decimal digits. -/
def takeDigits : List Char → List Char × List Char
  | [] => ([], [])
  | c :: rest =>
    if c.isDigit then
      let p := takeDigits rest
      (c :: p.1, p.2)
    else ([], c :: rest)

/-- Decimal digits to a natural number. -/
def digitsToNat (ds : List Char) : Nat :=
  ds.foldl (fun a c => a * 10 + (c.toNat - 48)) 0

mutual

/-- Parse one JSON value (fuel-indexed recursive-descent). -/
def parseVal : Nat → List Char → Option (JVal × List Char)
  | 0, _ => none
  | fuel + 1, cs =>
    match skipWs cs with
    | [] => none
    | '"' :: rest =>
      match parseStrBody rest with
      | some (s, r) => some (.jstr (String.mk s), r)
      | none => none
    | 'n' :: 'u' :: 'l' :: 'l' :: rest => some (.jnull, rest)
    | 't' :: 'r' :: 'u' :: 'e' :: rest => some (.jbool true, rest)
    | 'f' :: 'a' :: 'l' :: 's' :: 'e' :: rest => some (.jbool false, rest)
    | '\x7b' :: rest =>
      match skipWs rest with
      | '\x7d' :: r => some (.jobj [], r)
      | cs1 =>
        match parseFields fuel cs1 with
        | some (fs, r) => some (.jobj fs, r)
        | none => none
    | '[' :: rest =>
      match skipWs rest with
      | ']' :: r => some (.jarr [], r)
      | cs1 =>
        match parseElems fuel cs1 with
        | some (es, r) => some (.jarr es, r)
        | none => none
    | '-' :: rest =>
      let p := takeDigits rest
      if p.1.isEmpty then none
      else some (.jnum (-(digitsToNat p.1 : ℤ)), p.2)
    | c :: rest =>
      if c.isDigit then
        let p := takeDigits (c :: rest)
        some (.jnum (digitsToNat p.1), p.2)
      else none

/-- Parse a non-empty `"key": value` field list up to the closing brace. -/
def parseFields : Nat → List Char → Option (List (String × JVal) × List Char)
  | 0, _ => none
  | fuel + 1, cs =>
    match skipWs cs with
    | '"' :: rest =>
      match parseStrBody rest with
      | none => none
      | some (key, r1) =>
        match skipWs r1 with
        | ':' :: r2 =>
          match parseVal fuel r2 with
          | none => none
          | some (v, r3) =>
            match skipWs r3 with
            | ',' :: r4 =>
              match parseFields fuel r4 with
              | some (fs, r5) => some ((String.mk key, v) :: fs, r5)
              | none => none
            | '\x7d' :: r4 => some ([(String.mk key, v)], r4)
            | _ => none
        | _ => none
    | _ => none

/-- Parse a non-empty array element list up to the closing bracket. -/
def parseElems : Nat → List Char → Option (List JVal × List Char)
  | 0, _ => none
  | fuel + 1, cs =>
    match parseVal fuel cs with
    | none => none
    | some (v, r1) =>
      match skipWs r1 with
      | ',' :: r2 =>
        match parseElems fuel r2 with
        | some (es, r3) => some (v :: es, r3)
        | none => none
      | ']' :: r2 => some ([v], r2)
      | _ => none

end

/-- `json.loads(s)` (model): parse one value, require only whitespace
after it, otherwise fail. -/
def jsonLoads (s : String) : Except Unit JVal :=
  match parseVal (s.data.length + 1) s.data with
  | some (v, rest) => if (skipWs rest).isEmpty then .ok v else .error ()
  | none => .error ()

/-- Look up a key in a parsed JSON object (Python `parsed["key"]`). -/
def jGet (j : JVal) (key : String) : Option JVal :=
  match j with
  | .jobj fields =>
    match fields.find? (fun f => f.1 == key) with
    | some f => some f.2
    | none => none
  | _ => none

/-- `detect_intent(user_query)` (query_handler.py lines 20-60) as a function
of the language-model service outcome for the classification request:
`.error` = the `openai` client raised (service unreachable), `.ok content` =
the returned message content.  The body is exactly
`return json.loads(content)`: parse failures propagate as the untyped
`json.JSONDecodeError`, transport failures as the untyped client error, and
whatever object parses is returned with no shape validation. -/
def detect_intent (svcOutcome : Except Unit String) : Except PyExn JVal :=
  match svcOutcome with
  | .error _ => .error .apiConnectionError
  | .ok content =>
    match jsonLoads content with
    | .ok v => .ok v
    | .error _ => .error .jsonDecodeError

/-- The five intents of the classification prompt (lines 31-48). -/
def intentValues : List String :=
  ["search", "question", "snippet", "summary", "keypoints"]

/-! ## Store lemmas -/

theorem lookupColl_setColl (l : List (String × List IndexedItem))
    (n : String) (v : List IndexedItem) :
    lookupColl (setColl l n v) n = some v := by
  induction l with
  | nil => simp [setColl, lookupColl]
  | cons kv rest ih =>
    obtain ⟨k, w⟩ := kv
    by_cases h : k = n
    · simp [setColl, h, lookupColl]
    · simp [setColl, h, lookupColl, ih]

/-- Deleting every present id empties the collection, whatever it held. -/
theorem clearItems_eq_nil (l : List IndexedItem) : clearItems l = [] := by
  cases l with
  | nil => rfl
  | cons a rest =>
    rw [clearItems, if_neg (by simp)]
    refine List.filter_eq_nil_iff.mpr ?_
    intro it hit
    have hmem : it.id ∈ (a :: rest).map IndexedItem.id :=
      List.mem_map_of_mem _ hit
    have hcont : ((a :: rest).map IndexedItem.id).contains it.id = true :=
      List.elem_iff.mpr hmem
    rw [hcont]
    simp

/-- With a length-preserving embedding service, `index_transcript` adds one
member per chunk. -/
theorem newChunkItems_length (svc : List String → List (List ℚ))
    (hsvc : ∀ b, (svc b).length = b.length) (t : Transcript) :
    (newChunkItems svc t).length = (chunk_transcript t 100).length := by
  have hemb := generate_embeddings_length svc hsvc
    ((chunk_transcript t 100).map Chunk.text).length
    ((chunk_transcript t 100).map Chunk.text) le_rfl
  simp [newChunkItems, hemb]

/-! ## Concrete fixtures used by witnesses and counterexamples -/

/-- A stand-in for `hashlib.md5(...).hexdigest()` at concrete inputs. -/
def md5c : String → String := fun _ => "9f86d081884c7d65"

/-- A length-preserving stand-in embedding service. -/
def svcc : List String → List (List ℚ) := fun ts => ts.map (fun _ => [0])

/-- A one-segment transcript fixture. -/
def tHello : Transcript := ⟨[⟨0, 1, "hello"⟩], "hello", 1, "en"⟩

/-- The empty index store with no current collection. -/
def emptyState : RagState := ⟨[], none⟩

/-! ## Claims -/

/-- C4: chunking drops no content — for every transcript, the chunk texts
produced by `chunk_transcript`, joined in order, reproduce the segment
texts joined in order (whitespace-join differences only), and an empty
segment list yields an empty chunk sequence rather than an error. -/
theorem c4_chunking_coverage (t : Transcript) (minLen : Nat) :
    joinWith " " ((chunk_transcript t minLen).map Chunk.text)
      = joinWith " " (t.segments.map Segment.text)
    ∧ (∀ ft d lg minLen2, chunk_transcript ⟨[], ft, d, lg⟩ minLen2 = []) := by
  constructor
  · rcases hseg : t.segments with _ | ⟨s, rest⟩
    · simp only [chunk_transcript, hseg]
      rfl
    · simp only [chunk_transcript, hseg]
      exact chunkAux_join minLen (by simp) [] 0 0
  · intro ft d lg minLen2
    rfl

/-- C2: the snippet time-window computation first widens to
`start = max(0, min starts − 2)` and `end = max ends + 2`, and exactly when
`end − start > max_duration` replaces the window by the symmetric window of
width `max_duration` centered on the midpoint of the first candidate span,
floored at 0; in particular `[{10,200}]` with `max_duration=60` resolves to
`{75, 135}` and `[{10,12}]` resolves to `{8, 14}`. -/
theorem c2_snippet_window_resolution (t0 : TimeSpan) (rest : List TimeSpan)
    (m : ℚ) :
    (snippetWindowPy (t0 :: rest) (some m) =
      if (rest.map TimeSpan.stop).foldl max t0.stop + 2
          - max 0 ((rest.map TimeSpan.start).foldl min t0.start - 2) > m then
        .ok (max 0 ((t0.start + t0.stop) / 2 - m / 2),
          (t0.start + t0.stop) / 2 + m / 2)
      else
        .ok (max 0 ((rest.map TimeSpan.start).foldl min t0.start - 2),
          (rest.map TimeSpan.stop).foldl max t0.stop + 2))
    ∧ snippetWindowPy [⟨10, 200, "a"⟩] (some 60) = .ok (75, 135)
    ∧ snippetWindowPy [⟨10, 12, "a"⟩] (some 60) = .ok (8, 14) := by
  refine ⟨?_, ?_, ?_⟩
  · simp only [snippetWindowPy, List.map_cons, List.min?, List.max?]
  · norm_num [snippetWindowPy, List.min?, List.max?]
  · norm_num [snippetWindowPy, List.min?, List.max?]

/-- C7 counterexample: the snippet strategy resolves one window from all
result spans jointly (clamp centered on the first span), while the batch
path resolves one window per result from that result's span alone; on the
two-result input `[{100,110}, {10,20}]` with `max_duration = 60` the
strategy window `{75,135}` differs from both batch windows
`{98,112}, {8,22}`. -/
theorem c7_batch_vs_strategy_windows_differ :
    snippetWindowPy [⟨100, 110, "a"⟩, ⟨10, 20, "b"⟩] (some 60) = .ok (75, 135)
    ∧ create_snippet_windows [⟨100, 110, "a"⟩, ⟨10, 20, "b"⟩] 60
        = [(98, 112), (8, 22)]
    ∧ ((75 : ℚ), (135 : ℚ)) ∉ [((98 : ℚ), (112 : ℚ)), ((8 : ℚ), (22 : ℚ))] := by
  refine ⟨?_, ?_, ?_⟩
  · norm_num [snippetWindowPy, List.min?, List.max?]
  · norm_num [create_snippet_windows, apiSnippetWindow]
  · decide

/-- C7 amended: both paths apply the same widen-then-clamp arithmetic
(padding 2, floor at 0, recenter at width `max_duration`); they coincide
exactly on single-result inputs, where the strategy's joint window over all
spans equals the batch path's per-result window. -/
theorem c7_amended_single_result_windows_agree (r : TimeSpan) (m : ℚ) :
    snippetWindowPy [r] (some m) = .ok (apiSnippetWindow m r) := by
  simp only [snippetWindowPy, apiSnippetWindow, List.map_cons, List.map_nil,
    List.min?, List.max?, List.foldl]
  split <;> rfl

/-- C6: a snippet query whose classified parameters carry
`"max_duration": null` (the shape the classification prompt requests when
no duration is mentioned) does not fall back to the 60-second default:
`parameters.get("max_duration", 60)` returns `None` because the key is
present, and the comparison `end - start > None` raises `TypeError`, so
`handle_user_query` fails instead of returning a `≤ 60` window.  The
third and fourth conjuncts show the 60-second default does engage when the
key is absent, which is the evident intent of `.get(..., 60)`. -/
theorem c6_null_max_duration_raises_type_error :
    handle_user_query (fun _ _ => [⟨"seg", 10, 200, 1⟩]) (fun _ => "")
        (fun _ => "") (fun _ => [])
        ⟨"snippet", "the topic", some none, some none⟩ "q" none
      = .error .typeErrorNoneCmp
    ∧ snippetWindowPy [⟨10, 200, "seg"⟩] (pyGet (some none) 60)
        = .error .typeErrorNoneCmp
    ∧ snippetWindowPy [⟨10, 200, "seg"⟩] (pyGet none 60) = .ok (75, 135)
    ∧ (135 : ℚ) - 75 ≤ 60 := by
  refine ⟨?_, ?_, ?_, ?_⟩
  · simp [handle_user_query, snippetWindowPy, pyGet, List.min?, List.max?]
  · norm_num [snippetWindowPy, pyGet, List.min?, List.max?]
  · norm_num [snippetWindowPy, pyGet, List.min?, List.max?]
  · norm_num

/-- C9 counterexample: a summary query handled with no transcript returns
an ordinary successful response whose `response` field is the string
`"Transcript required for summary"` — no typed error (and no error at all)
is propagated to the caller. -/
theorem c9_summary_without_transcript_returns_ok :
    handle_user_query (fun _ _ => []) (fun _ => "") (fun _ => "sum")
        (fun _ => []) ⟨"summary", "the video", some none, some none⟩ "q" none
      = .ok ⟨"summary", "q", some "Transcript required for summary",
          none, none, none, none⟩ := by
  simp [handle_user_query]

/-- C9 amended: for a summary (resp. keypoints) query handled with no
transcript, `handle_user_query` returns an ordinary successful response
whose message is `"Transcript required for summary"` (resp.
`"Transcript required for key points"`); it raises nothing (the repository
defines no `MissingTranscriptError` or any other exception type). -/
theorem c9_amended_missing_transcript_message
    (searchFn : String → Nat → List SearchResult) (llmAnswer : String → String)
    (llmSummary : Transcript → String) (llmKeypoints : Transcript → List KeyPoint)
    (ir : IntentResult) (q : String) :
    (ir.intent = "summary" →
      handle_user_query searchFn llmAnswer llmSummary llmKeypoints ir q none
        = .ok ⟨ir.intent, q, some "Transcript required for summary",
            none, none, none, none⟩)
    ∧ (ir.intent = "keypoints" →
      handle_user_query searchFn llmAnswer llmSummary llmKeypoints ir q none
        = .ok ⟨ir.intent, q, some "Transcript required for key points",
            none, none, none, none⟩) := by
  constructor
  · intro h
    simp [handle_user_query, h]
  · intro h
    simp [handle_user_query, h]

/-- Witness for the amended C9 statement at concrete inputs. -/
theorem c9_amended_missing_transcript_message_witness :
    handle_user_query (fun _ _ => []) (fun _ => "") (fun _ => "s")
        (fun _ => []) ⟨"summary", "t", none, none⟩ "q" none
      = .ok ⟨"summary", "q", some "Transcript required for summary",
          none, none, none, none⟩
    ∧ handle_user_query (fun _ _ => []) (fun _ => "") (fun _ => "s")
        (fun _ => []) ⟨"keypoints", "t", none, none⟩ "q" none
      = .ok ⟨"keypoints", "q", some "Transcript required for key points",
          none, none, none, none⟩ :=
  ⟨(c9_amended_missing_transcript_message (fun _ _ => []) (fun _ => "")
      (fun _ => "s") (fun _ => []) ⟨"summary", "t", none, none⟩ "q").1 rfl,
   (c9_amended_missing_transcript_message (fun _ _ => []) (fun _ => "")
      (fun _ => "s") (fun _ => []) ⟨"keypoints", "t", none, none⟩ "q").2 rfl⟩

/-- C1: `search` computes `relevance = 1 - distance` with no clamping
(rag_engine.py line 184): when the index reports a cosine distance of
`3/2` (possible for anti-correlated embeddings, cosine distance ranges
over `[0, 2]`), the returned relevance is `-1/2 < 0`, violating the
documented `0 ≤ relevance ≤ 1` bound. -/
theorem c1_relevance_not_clamped :
    search ⟨[("c", [])], none⟩ "q" (some "c")
        (fun _ => [("seg", (0, 4), 3/2)])
      = .ok [⟨"seg", 0, 4, -(1/2)⟩]
    ∧ ¬(0 ≤ (-(1/2) : ℚ)) := by
  constructor
  · simp [search, collection_exists, lookupColl]
    norm_num
  · norm_num

/-- C8 counterexample: when the language-model service returns the
well-formed JSON object `{"intent": "banana", ...}`, `detect_intent`
returns it verbatim — an intent outside the five fixed values, with no
error raised and no `IntentClassificationError` anywhere (the repository
defines no such type). -/
theorem c8_unvalidated_intent_returned :
    detect_intent (.ok "\x7b\"intent\": \"banana\", \"topic\": \"cooking\", \"parameters\": \x7b\"max_duration\": null, \"detail_level\": null\x7d\x7d")
      = .ok (.jobj [("intent", .jstr "banana"), ("topic", .jstr "cooking"),
          ("parameters", .jobj [("max_duration", .jnull),
            ("detail_level", .jnull)])])
    ∧ jGet (.jobj [("intent", .jstr "banana"), ("topic", .jstr "cooking"),
          ("parameters", .jobj [("max_duration", .jnull),
            ("detail_level", .jnull)])]) "intent"
        = some (.jstr "banana")
    ∧ "banana" ∉ intentValues := by
  refine ⟨rfl, rfl, by decide⟩

/-- C8 amended: `detect_intent` either returns whatever JSON value the
service output parses to — with no validation of the `intent` field
against the five fixed values and no default substituted — or fails with
the untyped library errors: the client's connection error when the service
is unreachable, `json.JSONDecodeError` when the output does not parse. -/
theorem c8_amended_detect_intent_outcomes (svcOutcome : Except Unit String) :
    (∃ s v, svcOutcome = .ok s ∧ jsonLoads s = .ok v
      ∧ detect_intent svcOutcome = .ok v)
    ∨ detect_intent svcOutcome = .error .apiConnectionError
    ∨ detect_intent svcOutcome = .error .jsonDecodeError := by
  cases svcOutcome with
  | error e => exact .inr (.inl rfl)
  | ok s =>
    cases hv : jsonLoads s with
    | ok v => exact .inl ⟨s, v, rfl, hv, by simp [detect_intent, hv]⟩
    | error e => exact .inr (.inr (by simp [detect_intent, hv]))

/-- C3: indexing is idempotent and leaves no stale or duplicate entries —
`index_transcript` clears every prior member of the derived collection
before re-population, so indexing the same transcript twice under the same
id derives the same name both times and leaves the collection with exactly
one member per chunk.  The hypothesis is the embedding service's contract
(one vector per input text, spec §6). -/
theorem c3_index_transcript_idempotent (md5hex : String → String)
    (svc : List String → List (List ℚ))
    (hsvc : ∀ b, (svc b).length = b.length)
    (st : RagState) (t : Transcript) (videoId : Option String) :
    (index_transcript md5hex svc
        (index_transcript md5hex svc st t videoId).1 t videoId).2
      = (index_transcript md5hex svc st t videoId).2
    ∧ ((lookupColl (index_transcript md5hex svc
          (index_transcript md5hex svc st t videoId).1 t videoId).1.collections
        (index_transcript md5hex svc st t videoId).2).getD []).length
      = (chunk_transcript t 100).length := by
  constructor
  · rfl
  · simp only [index_transcript, lookupColl_setColl, Option.getD_some]
    rw [clearItems_eq_nil]
    simp [newChunkItems_length svc hsvc t]

/-- Witness for C3 at a concrete transcript, store and (length-preserving)
embedding service. -/
theorem c3_index_transcript_idempotent_witness :
    (index_transcript md5c svcc
        (index_transcript md5c svcc emptyState tHello none).1 tHello none).2
      = (index_transcript md5c svcc emptyState tHello none).2
    ∧ ((lookupColl (index_transcript md5c svcc
          (index_transcript md5c svcc emptyState tHello none).1 tHello none).1.collections
        (index_transcript md5c svcc emptyState tHello none).2).getD []).length
      = (chunk_transcript tHello 100).length :=
  c3_index_transcript_idempotent md5c svcc (by intro b; simp [svcc])
    emptyState tHello none

/-- C10: the derived collection name depends only on the first 1000
characters of the transcript's `full_text` — `index_transcript` without an
explicit `video_id` derives `"transcript_video_" ++ md5(full_text[:1000])
[:12]`, so any two transcripts agreeing on that prefix map to the same
collection name (and hence overwrite the same collection). -/
theorem c10_derived_name_depends_only_on_prefix (md5hex : String → String)
    (svc : List String → List (List ℚ)) (st1 st2 : RagState)
    (t1 t2 : Transcript)
    (h : t1.full_text.take 1000 = t2.full_text.take 1000) :
    (index_transcript md5hex svc st1 t1 none).2
      = (index_transcript md5hex svc st2 t2 none).2 := by
  simp [index_transcript, derivedName, deriveVideoId, h]

/-- Witness for C10: two distinct transcripts (different segments,
duration and language) with the same `full_text` prefix. -/
theorem c10_derived_name_depends_only_on_prefix_witness :
    (index_transcript md5c svcc emptyState tHello none).2
      = (index_transcript md5c svcc emptyState
          ⟨[⟨0, 2, "hello"⟩], "hello", 2, "fr"⟩ none).2 :=
  c10_derived_name_depends_only_on_prefix md5c svcc emptyState emptyState
    tHello ⟨[⟨0, 2, "hello"⟩], "hello", 2, "fr"⟩ rfl

/-- C5 counterexample: with the collection `"abc"` absent and a one-segment
transcript supplied, `ensure_collection_indexed` returns true — but it has
rebuilt the collection under `"transcript_abc"` (the name is re-prefixed
after stripping `"transcript_"`, which `"abc"` does not carry), not under
`"abc"`, which still does not exist. -/
theorem c5_rebuild_under_different_name :
    (ensure_collection_indexed md5c svcc emptyState "abc" (some tHello)).2
      = true
    ∧ collection_exists
        (ensure_collection_indexed md5c svcc emptyState "abc" (some tHello)).1
        "abc" = false
    ∧ (ensure_collection_indexed md5c svcc emptyState "abc" (some tHello)).1.current
        = some "transcript_abc" := by
  refine ⟨?_, ?_, ?_⟩ <;>
    simp [ensure_collection_indexed, collection_exists, lookupColl,
      index_transcript, derivedName, setColl, pyReplace, pyReplaceAux,
      leadsChars, emptyState, tHello]

/-- C5 amended: `ensure_collection_indexed(name, transcript)` returns true
immediately (setting the current pointer) when the collection exists;
returns false when it is absent and the transcript is `None` or has no
segments; and when it is absent and a transcript with at least one segment
is supplied it rebuilds a collection and returns true, under the name
`"transcript_" ++ name.replace("transcript_", "")` when the stripped id is
non-empty — equal to `name` exactly for the canonical `transcript_...`
names with a single occurrence of the prefix — and, when stripping leaves
the empty string (e.g. `name = "transcript_"`), under the content-derived
fallback `"transcript_" ++ "video_" ++ md5(full_text[:1000])[:12]` (the
`if not video_id` branch of `index_transcript`); in every rebuild case the
current pointer is updated to the rebuilt name. -/
theorem c5_amended_ensure_collection_behaviour (md5hex : String → String)
    (svc : List String → List (List ℚ)) (st : RagState) (name : String)
    (t : Transcript) :
    (∀ tr : Option Transcript, collection_exists st name = true →
      ensure_collection_indexed md5hex svc st name tr
        = ({ st with current := some name }, true))
    ∧ (collection_exists st name = false →
      ensure_collection_indexed md5hex svc st name none = (st, false))
    ∧ (collection_exists st name = false → t.segments = [] →
      ensure_collection_indexed md5hex svc st name (some t) = (st, false))
    ∧ (collection_exists st name = false → t.segments ≠ [] →
      (ensure_collection_indexed md5hex svc st name (some t)).2 = true
      ∧ (ensure_collection_indexed md5hex svc st name (some t)).1.current
          = some (if pyReplace name "transcript_" "" = ""
              then "transcript_" ++ deriveVideoId md5hex t
              else "transcript_" ++ pyReplace name "transcript_" "")
      ∧ collection_exists
          (ensure_collection_indexed md5hex svc st name (some t)).1
          (if pyReplace name "transcript_" "" = ""
           then "transcript_" ++ deriveVideoId md5hex t
           else "transcript_" ++ pyReplace name "transcript_" "") = true) := by
  refine ⟨?_, ?_, ?_, ?_⟩
  · intro tr h
    simp [ensure_collection_indexed, h]
  · intro h
    simp [ensure_collection_indexed, h]
  · intro h hseg
    simp [ensure_collection_indexed, h, hseg]
  · intro h hseg
    have hisEmpty : t.segments.isEmpty = false := by
      cases hs : t.segments with
      | nil => exact absurd hs hseg
      | cons a l => rfl
    have h2 : (lookupColl st.collections name).isSome = false := h
    refine ⟨?_, ?_, ?_⟩
    · simp [ensure_collection_indexed, h, hisEmpty]
    · by_cases hvid : pyReplace name "transcript_" "" = "" <;>
        simp [ensure_collection_indexed, h, hisEmpty, index_transcript,
          derivedName, hvid]
    · by_cases hvid : pyReplace name "transcript_" "" = "" <;>
        simp [ensure_collection_indexed, h2, hisEmpty, index_transcript,
          collection_exists, derivedName, hvid, lookupColl_setColl]

/-- Witness for the amended C5 statement: an existing collection, a missing
collection with no transcript, a rebuild under a canonical name, and a
rebuild under the content-derived fallback name (strip of
`"transcript_"` leaves the empty id). -/
theorem c5_amended_ensure_collection_behaviour_witness :
    ensure_collection_indexed md5c svcc ⟨[("transcript_video_x", [])], none⟩
        "transcript_video_x" none
      = ({ (⟨[("transcript_video_x", [])], none⟩ : RagState) with
            current := some "transcript_video_x" }, true)
    ∧ ensure_collection_indexed md5c svcc emptyState "transcript_video_x" none
        = (emptyState, false)
    ∧ ((ensure_collection_indexed md5c svcc emptyState "transcript_video_abc"
          (some tHello)).2 = true
      ∧ (ensure_collection_indexed md5c svcc emptyState "transcript_video_abc"
          (some tHello)).1.current
          = some (if pyReplace "transcript_video_abc" "transcript_" "" = ""
              then "transcript_" ++ deriveVideoId md5c tHello
              else "transcript_"
                ++ pyReplace "transcript_video_abc" "transcript_" "")
      ∧ collection_exists
          (ensure_collection_indexed md5c svcc emptyState
            "transcript_video_abc" (some tHello)).1
          (if pyReplace "transcript_video_abc" "transcript_" "" = ""
           then "transcript_" ++ deriveVideoId md5c tHello
           else "transcript_"
             ++ pyReplace "transcript_video_abc" "transcript_" "")
          = true)
    ∧ ((ensure_collection_indexed md5c svcc emptyState "transcript_"
          (some tHello)).2 = true
      ∧ (ensure_collection_indexed md5c svcc emptyState "transcript_"
          (some tHello)).1.current
          = some (if pyReplace "transcript_" "transcript_" "" = ""
              then "transcript_" ++ deriveVideoId md5c tHello
              else "transcript_" ++ pyReplace "transcript_" "transcript_" "")
      ∧ collection_exists
          (ensure_collection_indexed md5c svcc emptyState "transcript_"
            (some tHello)).1
          (if pyReplace "transcript_" "transcript_" "" = ""
           then "transcript_" ++ deriveVideoId md5c tHello
           else "transcript_" ++ pyReplace "transcript_" "transcript_" "")
          = true) :=
  ⟨(c5_amended_ensure_collection_behaviour md5c svcc
      ⟨[("transcript_video_x", [])], none⟩ "transcript_video_x" tHello).1
      none (by decide),
   (c5_amended_ensure_collection_behaviour md5c svcc emptyState
      "transcript_video_x" tHello).2.1 (by decide),
   (c5_amended_ensure_collection_behaviour md5c svcc emptyState
      "transcript_video_abc" tHello).2.2.2 (by decide) (by decide),
   (c5_amended_ensure_collection_behaviour md5c svcc emptyState
      "transcript_" tHello).2.2.2 (by decide) (by decide)⟩

end VideoAgent
